import Mathlib

/-!
Formal model of the heart-disease risk assessment app
(`src/03_ClassificationAlgorithms/app.py`).

The app collects eleven clinical inputs, rebuilds the one-hot encoded
feature vector expected by a pre-trained classifier, and renders a risk
label, a percentage and a list of rule-based risk-factor flags.

The embedding models a one-row pandas DataFrame as an association list
from column name to rational value, in column order.  The three steps of
the feature-vector reconstruction (lines 153-171 of `app.py`) are:
`rawInput` (the `raw_input` dict, in Python insertion order),
`fillMissing` (the `for col in expected_columns` loop appending missing
columns with value 0), and `selectCols` (`input_df[expected_columns]`,
which selects the schema columns in schema order and raises a KeyError,
modelled as `none`, when a requested column is absent).
-/

inductive Sex
  | M
  | F
  deriving DecidableEq

inductive ChestPainType
  | ATA
  | NAP
  | TA
  | ASY
  deriving DecidableEq

inductive RestingECG
  | Normal
  | ST
  | LVH
  deriving DecidableEq

inductive ExerciseAngina
  | Y
  | N
  deriving DecidableEq

inductive STSlope
  | Up
  | Flat
  | Down
  deriving DecidableEq

/-- String value of the `sex` selectbox (`["M", "F"]`). -/
def sexStr : Sex → String
  | .M => "M"
  | .F => "F"

/-- String value of the `chest_pain` selectbox (`["ATA", "NAP", "TA", "ASY"]`). -/
def chestPainStr : ChestPainType → String
  | .ATA => "ATA"
  | .NAP => "NAP"
  | .TA => "TA"
  | .ASY => "ASY"

/-- String value of the `resting_ecg` selectbox (`["Normal", "ST", "LVH"]`). -/
def restingECGStr : RestingECG → String
  | .Normal => "Normal"
  | .ST => "ST"
  | .LVH => "LVH"

/-- String value of the `exercise_angina` selectbox (`["Y", "N"]`). -/
def exerciseAnginaStr : ExerciseAngina → String
  | .Y => "Y"
  | .N => "N"

/-- String value of the `st_slope` selectbox (`["Up", "Flat", "Down"]`). -/
def stSlopeStr : STSlope → String
  | .Up => "Up"
  | .Flat => "Flat"
  | .Down => "Down"

/-- The eleven collected inputs of one submission (lines 111-132 of
`app.py`): six numeric fields and five categorical selections.  Numeric
values are modelled as rationals (`age`, `resting_bp`, `cholesterol`,
`max_hr` are integers from sliders, `fasting_bs` is 0 or 1, `oldpeak` is
a decimal slider value). -/
structure RawObservation where
  age : ℚ
  resting_bp : ℚ
  cholesterol : ℚ
  fasting_bs : ℚ
  max_hr : ℚ
  oldpeak : ℚ
  sex : Sex
  chest_pain : ChestPainType
  resting_ecg : RestingECG
  exercise_angina : ExerciseAngina
  st_slope : STSlope

/-- The `raw_input` dict (lines 153-165 of `app.py`), in Python dict
insertion order: the six numeric fields verbatim, then one synthesized
one-hot key per categorical field, set to 1. -/
def rawInput (o : RawObservation) : List (String × ℚ) :=
  [("Age", o.age),
   ("RestingBP", o.resting_bp),
   ("Cholesterol", o.cholesterol),
   ("FastingBS", o.fasting_bs),
   ("MaxHR", o.max_hr),
   ("Oldpeak", o.oldpeak),
   ("Sex_" ++ sexStr o.sex, 1),
   ("ChestPainType_" ++ chestPainStr o.chest_pain, 1),
   ("RestingECG_" ++ restingECGStr o.resting_ecg, 1),
   ("ExerciseAngina_" ++ exerciseAnginaStr o.exercise_angina, 1),
   ("ST_Slope_" ++ stSlopeStr o.st_slope, 1)]

/-- Membership test for a column name, as in `col not in input_df.columns`. -/
def hasCol (df : List (String × ℚ)) (c : String) : Bool :=
  df.any (fun p => p.1 == c)

/-- Value of the (first) column named `c` in the one-row frame, 0 when
the column is absent. -/
def colVal (df : List (String × ℚ)) (c : String) : ℚ :=
  match df.find? (fun p => p.1 == c) with
  | some p => p.2
  | none => 0

/-- One iteration of the fill loop: `if col not in input_df.columns:
input_df[col] = 0` appends a new column with value 0 at the end. -/
def fillStep (df : List (String × ℚ)) (c : String) : List (String × ℚ) :=
  if hasCol df c then df else df ++ [(c, 0)]

/-- The fill loop over the expected columns (lines 168-170 of `app.py`). -/
def fillMissing (df : List (String × ℚ)) (schema : List String) : List (String × ℚ) :=
  schema.foldl fillStep df

/-- Column selection `input_df[expected_columns]` (line 171 of `app.py`):
keeps the requested columns in the requested order, fails (pandas
`KeyError`) when a requested column is absent. -/
def selectCols (df : List (String × ℚ)) : List String → Option (List (String × ℚ))
  | [] => some []
  | c :: rest =>
    match df.find? (fun p => p.1 == c), selectCols df rest with
    | some p, some v => some ((c, p.2) :: v)
    | _, _ => none

/-- The complete feature-vector reconstruction (lines 153-171 of
`app.py`): build `raw_input`, fill missing expected columns with 0, then
reorder to the expected schema. -/
def buildInputDf (o : RawObservation) (schema : List String) : Option (List (String × ℚ)) :=
  selectCols (fillMissing (rawInput o) schema) schema

lemma hasCol_append_left {df l : List (String × ℚ)} {c : String}
    (h : hasCol df c) : hasCol (df ++ l) c := by
  simp only [hasCol, List.any_append, Bool.or_eq_true]
  exact Or.inl h

lemma hasCol_fillStep {df : List (String × ℚ)} {c c' : String}
    (h : hasCol df c) : hasCol (fillStep df c') c := by
  unfold fillStep
  split
  · exact h
  · exact hasCol_append_left h

lemma hasCol_fillStep_self (df : List (String × ℚ)) (c : String) :
    hasCol (fillStep df c) c := by
  unfold fillStep
  split
  · assumption
  · simp [hasCol, List.any_append]

lemma hasCol_fillMissing_of_hasCol {df : List (String × ℚ)} {c : String} :
    ∀ {s : List String}, hasCol df c → hasCol (fillMissing df s) c := by
  intro s
  induction s generalizing df with
  | nil => exact fun h => h
  | cons c' rest ih =>
    intro h
    exact ih (hasCol_fillStep h)

lemma hasCol_fillMissing_of_mem {c : String} :
    ∀ {s : List String} (df : List (String × ℚ)), c ∈ s → hasCol (fillMissing df s) c := by
  intro s
  induction s with
  | nil => intro df h; cases h
  | cons c' rest ih =>
    intro df h
    rcases List.mem_cons.mp h with h | h
    · subst h
      show hasCol (fillMissing (fillStep df c) rest) c
      exact hasCol_fillMissing_of_hasCol (hasCol_fillStep_self df c)
    · exact ih (fillStep df c') h

lemma find?_isSome_of_hasCol {df : List (String × ℚ)} {c : String}
    (h : hasCol df c) : (df.find? (fun p => p.1 == c)).isSome := by
  rcases List.any_eq_true.mp h with ⟨p, hp, hpc⟩
  rw [List.find?_isSome]
  exact ⟨p, hp, hpc⟩

lemma colVal_append_left {df l : List (String × ℚ)} {c : String}
    (h : hasCol df c) : colVal (df ++ l) c = colVal df c := by
  unfold colVal
  rw [List.find?_append]
  rcases Option.isSome_iff_exists.mp (find?_isSome_of_hasCol h) with ⟨p, hp⟩
  rw [hp]
  rfl

lemma colVal_eq_zero_of_not_hasCol {df : List (String × ℚ)} {c : String}
    (h : ¬ hasCol df c) : colVal df c = 0 := by
  unfold colVal
  have : df.find? (fun p => p.1 == c) = none := by
    rw [List.find?_eq_none]
    intro p hp hpc
    exact h (List.any_eq_true.mpr ⟨p, hp, hpc⟩)
  rw [this]

lemma colVal_fillStep {df : List (String × ℚ)} {c c' : String} :
    colVal (fillStep df c') c = if hasCol df c then colVal df c else 0 := by
  by_cases h : hasCol df c
  · rw [if_pos h]
    unfold fillStep
    split
    · rfl
    · exact colVal_append_left h
  · rw [if_neg h]
    unfold fillStep
    split
    · exact colVal_eq_zero_of_not_hasCol h
    · by_cases hcc : c' = c
      · subst hcc
        unfold colVal
        rw [List.find?_append]
        have : df.find? (fun p => p.1 == c') = none := by
          rw [List.find?_eq_none]
          intro p hp hpc
          exact h (List.any_eq_true.mpr ⟨p, hp, hpc⟩)
        rw [this]
        simp [List.find?]
      · unfold colVal
        rw [List.find?_append]
        have h1 : df.find? (fun p => p.1 == c) = none := by
          rw [List.find?_eq_none]
          intro p hp hpc
          exact h (List.any_eq_true.mpr ⟨p, hp, hpc⟩)
        have h2 : List.find? (fun p => p.1 == c) [(c', (0 : ℚ))] = none := by
          rw [List.find?_cons_of_neg _ (by simp [hcc])]
          rfl
        rw [h1, h2]
        rfl

lemma colVal_fillMissing {c : String} :
    ∀ {s : List String} (df : List (String × ℚ)),
      colVal (fillMissing df s) c = if hasCol df c then colVal df c else 0 := by
  intro s
  induction s with
  | nil =>
    intro df
    by_cases h : hasCol df c
    · rw [if_pos h]; rfl
    · rw [if_neg h]
      exact colVal_eq_zero_of_not_hasCol h
  | cons c' rest ih =>
    intro df
    show colVal (fillMissing (fillStep df c') rest) c = _
    rw [ih (fillStep df c')]
    by_cases h : hasCol df c
    · rw [if_pos h, if_pos (hasCol_fillStep h)]
      unfold fillStep
      split
      · rfl
      · exact colVal_append_left h
    · rw [if_neg h]
      by_cases h' : hasCol (fillStep df c') c
      · rw [if_pos h']
        rw [colVal_fillStep, if_neg h]
      · rw [if_neg h']

lemma selectCols_eq_map {df : List (String × ℚ)} :
    ∀ {s : List String}, (∀ c ∈ s, hasCol df c) →
      selectCols df s = some (s.map fun c => (c, colVal df c)) := by
  intro s
  induction s with
  | nil => intro _; rfl
  | cons c rest ih =>
    intro h
    have hc := h c (List.mem_cons_self c rest)
    rcases Option.isSome_iff_exists.mp (find?_isSome_of_hasCol hc) with ⟨p, hp⟩
    have hrest := ih (fun c' hc' => h c' (List.mem_cons_of_mem c hc'))
    show (match df.find? (fun p => p.1 == c), selectCols df rest with
      | some p, some v => some ((c, p.2) :: v)
      | _, _ => none) = _
    rw [hp, hrest]
    have hval : colVal df c = p.2 := by
      unfold colVal
      rw [hp]
    simp [hval]

/--`buildInputDf` never fails and returns one value per expected column:
the raw value when the raw dict has the column, 0 otherwise. -/
lemma buildInputDf_eq (o : RawObservation) (schema : List String) :
    buildInputDf o schema =
      some (schema.map fun c =>
        (c, if hasCol (rawInput o) c then colVal (rawInput o) c else 0)) := by
  unfold buildInputDf
  rw [selectCols_eq_map (fun c hc => hasCol_fillMissing_of_mem (rawInput o) hc)]
  congr 1
  apply List.map_congr_left
  intro c _
  rw [colVal_fillMissing]

lemma colVal_map_of_mem {g : String → ℚ} {c : String} :
    ∀ {s : List String}, c ∈ s →
      colVal (s.map fun x => (x, g x)) c = g c := by
  intro s
  induction s with
  | nil => intro h; cases h
  | cons c' rest ih =>
    intro h
    by_cases hcc : c' = c
    · subst hcc
      unfold colVal
      simp [List.find?]
    · unfold colVal
      have : ((c', g c').1 == c) = false := by simp [hcc]
      simp only [List.map_cons]
      rw [List.find?_cons_of_neg _ (by simp [hcc])]
      rcases List.mem_cons.mp h with h | h
      · exact absurd h.symm hcc
      · have := ih h
        unfold colVal at this
        exact this

/-- The one-hot key synthesized for the sex selection (`f'Sex_{sex}'`). -/
def sexKey (o : RawObservation) : String := "Sex_" ++ sexStr o.sex

/-- The one-hot key synthesized for the chest-pain selection. -/
def chestPainKey (o : RawObservation) : String :=
  "ChestPainType_" ++ chestPainStr o.chest_pain

/-- The one-hot key synthesized for the resting-ECG selection. -/
def restingECGKey (o : RawObservation) : String :=
  "RestingECG_" ++ restingECGStr o.resting_ecg

/-- The one-hot key synthesized for the exercise-angina selection. -/
def exerciseAnginaKey (o : RawObservation) : String :=
  "ExerciseAngina_" ++ exerciseAnginaStr o.exercise_angina

/-- The one-hot key synthesized for the ST-slope selection. -/
def stSlopeKey (o : RawObservation) : String :=
  "ST_Slope_" ++ stSlopeStr o.st_slope

/-- The full one-hot column domain of the `Sex` field. -/
def sexCols : List String := ["Sex_M", "Sex_F"]

/-- The full one-hot column domain of the `ChestPainType` field. -/
def chestPainCols : List String :=
  ["ChestPainType_ATA", "ChestPainType_NAP", "ChestPainType_TA", "ChestPainType_ASY"]

/-- The full one-hot column domain of the `RestingECG` field. -/
def restingECGCols : List String :=
  ["RestingECG_Normal", "RestingECG_ST", "RestingECG_LVH"]

/-- The full one-hot column domain of the `ExerciseAngina` field. -/
def exerciseAnginaCols : List String := ["ExerciseAngina_Y", "ExerciseAngina_N"]

/-- The full one-hot column domain of the `ST_Slope` field. -/
def stSlopeCols : List String := ["ST_Slope_Up", "ST_Slope_Flat", "ST_Slope_Down"]

/-- The five categorical fields, each as its synthesized one-hot key
paired with the field's full one-hot column domain. -/
def catFieldSpecs (o : RawObservation) : List (String × List String) :=
  [(sexKey o, sexCols),
   (chestPainKey o, chestPainCols),
   (restingECGKey o, restingECGCols),
   (exerciseAnginaKey o, exerciseAnginaCols),
   (stSlopeKey o, stSlopeCols)]

lemma append_ne_of_not_prefix {p t : String} (s : String)
    (h : ¬ p.data <+: t.data) : p ++ s ≠ t := by
  intro he
  apply h
  have hd : (p ++ s).data = t.data := by rw [he]
  rw [String.data_append] at hd
  exact ⟨s.data, hd⟩

lemma append_ne_append {p q : String} (s t : String)
    (h : ¬ p.data <+: q.data) (h' : ¬ q.data <+: p.data) : p ++ s ≠ q ++ t := by
  intro he
  have hd : p.data ++ s.data = q.data ++ t.data := by
    rw [← String.data_append, ← String.data_append, he]
  have h1 : p.data <+: (q.data ++ t.data) := ⟨s.data, hd⟩
  have h2 : q.data <+: (q.data ++ t.data) := ⟨t.data, rfl⟩
  rcases List.prefix_or_prefix_of_prefix h1 h2 with hp | hp
  · exact h hp
  · exact h' hp

lemma hasCol_cons {p : String × ℚ} {df : List (String × ℚ)} {c : String} :
    hasCol (p :: df) c = ((p.1 == c) || hasCol df c) := by
  simp [hasCol]

lemma colVal_cons_ne {p : String × ℚ} {df : List (String × ℚ)} {c : String}
    (h : p.1 ≠ c) : colVal (p :: df) c = colVal df c := by
  unfold colVal
  rw [List.find?_cons_of_neg _ (by simp [h])]

lemma colVal_cons_eq {p : String × ℚ} {df : List (String × ℚ)} {c : String}
    (h : p.1 = c) : colVal (p :: df) c = p.2 := by
  unfold colVal
  rw [List.find?_cons_of_pos _ (by simp [h])]

/-- Membership of a column in the `raw_input` dict, spelled out over its
eleven keys. -/
lemma hasCol_rawInput_iff (o : RawObservation) (c : String) :
    hasCol (rawInput o) c = true ↔
      "Age" = c ∨ "RestingBP" = c ∨ "Cholesterol" = c ∨ "FastingBS" = c ∨
      "MaxHR" = c ∨ "Oldpeak" = c ∨ sexKey o = c ∨ chestPainKey o = c ∨
      restingECGKey o = c ∨ exerciseAnginaKey o = c ∨ stSlopeKey o = c := by
  unfold rawInput
  simp [hasCol, sexKey, chestPainKey, restingECGKey, exerciseAnginaKey, stSlopeKey]

lemma sexKey_ne {o : RawObservation} {c : String}
    (h : ¬ "Sex_".data <+: c.data) : sexKey o ≠ c := by
  unfold sexKey
  exact append_ne_of_not_prefix _ h

lemma chestPainKey_ne {o : RawObservation} {c : String}
    (h : ¬ "ChestPainType_".data <+: c.data) : chestPainKey o ≠ c := by
  unfold chestPainKey
  exact append_ne_of_not_prefix _ h

lemma restingECGKey_ne {o : RawObservation} {c : String}
    (h : ¬ "RestingECG_".data <+: c.data) : restingECGKey o ≠ c := by
  unfold restingECGKey
  exact append_ne_of_not_prefix _ h

lemma exerciseAnginaKey_ne {o : RawObservation} {c : String}
    (h : ¬ "ExerciseAngina_".data <+: c.data) : exerciseAnginaKey o ≠ c := by
  unfold exerciseAnginaKey
  exact append_ne_of_not_prefix _ h

lemma stSlopeKey_ne {o : RawObservation} {c : String}
    (h : ¬ "ST_Slope_".data <+: c.data) : stSlopeKey o ≠ c := by
  unfold stSlopeKey
  exact append_ne_of_not_prefix _ h

lemma sexKey_ne_chestPainKey (o o' : RawObservation) : sexKey o ≠ chestPainKey o' := by
  unfold sexKey chestPainKey
  exact append_ne_append _ _ (by decide) (by decide)

lemma sexKey_ne_restingECGKey (o o' : RawObservation) : sexKey o ≠ restingECGKey o' := by
  unfold sexKey restingECGKey
  exact append_ne_append _ _ (by decide) (by decide)

lemma sexKey_ne_exerciseAnginaKey (o o' : RawObservation) :
    sexKey o ≠ exerciseAnginaKey o' := by
  unfold sexKey exerciseAnginaKey
  exact append_ne_append _ _ (by decide) (by decide)

lemma sexKey_ne_stSlopeKey (o o' : RawObservation) : sexKey o ≠ stSlopeKey o' := by
  unfold sexKey stSlopeKey
  exact append_ne_append _ _ (by decide) (by decide)

lemma chestPainKey_ne_restingECGKey (o o' : RawObservation) :
    chestPainKey o ≠ restingECGKey o' := by
  unfold chestPainKey restingECGKey
  exact append_ne_append _ _ (by decide) (by decide)

lemma chestPainKey_ne_exerciseAnginaKey (o o' : RawObservation) :
    chestPainKey o ≠ exerciseAnginaKey o' := by
  unfold chestPainKey exerciseAnginaKey
  exact append_ne_append _ _ (by decide) (by decide)

lemma chestPainKey_ne_stSlopeKey (o o' : RawObservation) :
    chestPainKey o ≠ stSlopeKey o' := by
  unfold chestPainKey stSlopeKey
  exact append_ne_append _ _ (by decide) (by decide)

lemma restingECGKey_ne_exerciseAnginaKey (o o' : RawObservation) :
    restingECGKey o ≠ exerciseAnginaKey o' := by
  unfold restingECGKey exerciseAnginaKey
  exact append_ne_append _ _ (by decide) (by decide)

lemma restingECGKey_ne_stSlopeKey (o o' : RawObservation) :
    restingECGKey o ≠ stSlopeKey o' := by
  unfold restingECGKey stSlopeKey
  exact append_ne_append _ _ (by decide) (by decide)

lemma exerciseAnginaKey_ne_stSlopeKey (o o' : RawObservation) :
    exerciseAnginaKey o ≠ stSlopeKey o' := by
  unfold exerciseAnginaKey stSlopeKey
  exact append_ne_append _ _ (by decide) (by decide)

lemma hasCol_rawInput_sexCol (o : RawObservation) {c : String} (hc : c ∈ sexCols) :
    (hasCol (rawInput o) c = true) ↔ c = sexKey o := by
  fin_cases hc <;>
    rw [hasCol_rawInput_iff] <;>
    cases hsx : o.sex <;> simp [sexKey, sexStr, hsx] <;>
    refine ⟨chestPainKey_ne (by decide), restingECGKey_ne (by decide),
      exerciseAnginaKey_ne (by decide), stSlopeKey_ne (by decide)⟩

lemma hasCol_rawInput_chestPainCol (o : RawObservation) {c : String}
    (hc : c ∈ chestPainCols) :
    (hasCol (rawInput o) c = true) ↔ c = chestPainKey o := by
  fin_cases hc <;>
    rw [hasCol_rawInput_iff] <;>
    cases hx : o.chest_pain <;> simp [chestPainKey, chestPainStr, hx] <;>
    refine ⟨sexKey_ne (by decide), restingECGKey_ne (by decide),
      exerciseAnginaKey_ne (by decide), stSlopeKey_ne (by decide)⟩

lemma hasCol_rawInput_restingECGCol (o : RawObservation) {c : String}
    (hc : c ∈ restingECGCols) :
    (hasCol (rawInput o) c = true) ↔ c = restingECGKey o := by
  fin_cases hc <;>
    rw [hasCol_rawInput_iff] <;>
    cases hx : o.resting_ecg <;> simp [restingECGKey, restingECGStr, hx] <;>
    refine ⟨sexKey_ne (by decide), chestPainKey_ne (by decide),
      exerciseAnginaKey_ne (by decide), stSlopeKey_ne (by decide)⟩

lemma hasCol_rawInput_exerciseAnginaCol (o : RawObservation) {c : String}
    (hc : c ∈ exerciseAnginaCols) :
    (hasCol (rawInput o) c = true) ↔ c = exerciseAnginaKey o := by
  fin_cases hc <;>
    rw [hasCol_rawInput_iff] <;>
    cases hx : o.exercise_angina <;> simp [exerciseAnginaKey, exerciseAnginaStr, hx] <;>
    refine ⟨sexKey_ne (by decide), chestPainKey_ne (by decide),
      restingECGKey_ne (by decide), stSlopeKey_ne (by decide)⟩

lemma hasCol_rawInput_stSlopeCol (o : RawObservation) {c : String}
    (hc : c ∈ stSlopeCols) :
    (hasCol (rawInput o) c = true) ↔ c = stSlopeKey o := by
  fin_cases hc <;>
    rw [hasCol_rawInput_iff] <;>
    cases hx : o.st_slope <;> simp [stSlopeKey, stSlopeStr, hx] <;>
    refine ⟨sexKey_ne (by decide), chestPainKey_ne (by decide),
      restingECGKey_ne (by decide), exerciseAnginaKey_ne (by decide)⟩

lemma colVal_rawInput_sexKey (o : RawObservation) : colVal (rawInput o) (sexKey o) = 1 := by
  unfold rawInput
  rw [colVal_cons_ne (show ("Age" : String) ≠ sexKey o from Ne.symm (sexKey_ne (by decide))),
    colVal_cons_ne (show ("RestingBP" : String) ≠ sexKey o from Ne.symm (sexKey_ne (by decide))),
    colVal_cons_ne (show ("Cholesterol" : String) ≠ sexKey o from Ne.symm (sexKey_ne (by decide))),
    colVal_cons_ne (show ("FastingBS" : String) ≠ sexKey o from Ne.symm (sexKey_ne (by decide))),
    colVal_cons_ne (show ("MaxHR" : String) ≠ sexKey o from Ne.symm (sexKey_ne (by decide))),
    colVal_cons_ne (show ("Oldpeak" : String) ≠ sexKey o from Ne.symm (sexKey_ne (by decide))),
    colVal_cons_eq (show ("Sex_" ++ sexStr o.sex : String) = sexKey o from rfl)]

lemma colVal_rawInput_chestPainKey (o : RawObservation) :
    colVal (rawInput o) (chestPainKey o) = 1 := by
  unfold rawInput
  rw [colVal_cons_ne (show ("Age" : String) ≠ chestPainKey o from
      Ne.symm (chestPainKey_ne (by decide))),
    colVal_cons_ne (show ("RestingBP" : String) ≠ chestPainKey o from
      Ne.symm (chestPainKey_ne (by decide))),
    colVal_cons_ne (show ("Cholesterol" : String) ≠ chestPainKey o from
      Ne.symm (chestPainKey_ne (by decide))),
    colVal_cons_ne (show ("FastingBS" : String) ≠ chestPainKey o from
      Ne.symm (chestPainKey_ne (by decide))),
    colVal_cons_ne (show ("MaxHR" : String) ≠ chestPainKey o from
      Ne.symm (chestPainKey_ne (by decide))),
    colVal_cons_ne (show ("Oldpeak" : String) ≠ chestPainKey o from
      Ne.symm (chestPainKey_ne (by decide))),
    colVal_cons_ne (show ("Sex_" ++ sexStr o.sex : String) ≠ chestPainKey o from
      sexKey_ne_chestPainKey o o),
    colVal_cons_eq (show ("ChestPainType_" ++ chestPainStr o.chest_pain : String) =
      chestPainKey o from rfl)]

lemma colVal_rawInput_restingECGKey (o : RawObservation) :
    colVal (rawInput o) (restingECGKey o) = 1 := by
  unfold rawInput
  rw [colVal_cons_ne (show ("Age" : String) ≠ restingECGKey o from
      Ne.symm (restingECGKey_ne (by decide))),
    colVal_cons_ne (show ("RestingBP" : String) ≠ restingECGKey o from
      Ne.symm (restingECGKey_ne (by decide))),
    colVal_cons_ne (show ("Cholesterol" : String) ≠ restingECGKey o from
      Ne.symm (restingECGKey_ne (by decide))),
    colVal_cons_ne (show ("FastingBS" : String) ≠ restingECGKey o from
      Ne.symm (restingECGKey_ne (by decide))),
    colVal_cons_ne (show ("MaxHR" : String) ≠ restingECGKey o from
      Ne.symm (restingECGKey_ne (by decide))),
    colVal_cons_ne (show ("Oldpeak" : String) ≠ restingECGKey o from
      Ne.symm (restingECGKey_ne (by decide))),
    colVal_cons_ne (show ("Sex_" ++ sexStr o.sex : String) ≠ restingECGKey o from
      sexKey_ne_restingECGKey o o),
    colVal_cons_ne (show ("ChestPainType_" ++ chestPainStr o.chest_pain : String) ≠
      restingECGKey o from chestPainKey_ne_restingECGKey o o),
    colVal_cons_eq (show ("RestingECG_" ++ restingECGStr o.resting_ecg : String) =
      restingECGKey o from rfl)]

lemma colVal_rawInput_exerciseAnginaKey (o : RawObservation) :
    colVal (rawInput o) (exerciseAnginaKey o) = 1 := by
  unfold rawInput
  rw [colVal_cons_ne (show ("Age" : String) ≠ exerciseAnginaKey o from
      Ne.symm (exerciseAnginaKey_ne (by decide))),
    colVal_cons_ne (show ("RestingBP" : String) ≠ exerciseAnginaKey o from
      Ne.symm (exerciseAnginaKey_ne (by decide))),
    colVal_cons_ne (show ("Cholesterol" : String) ≠ exerciseAnginaKey o from
      Ne.symm (exerciseAnginaKey_ne (by decide))),
    colVal_cons_ne (show ("FastingBS" : String) ≠ exerciseAnginaKey o from
      Ne.symm (exerciseAnginaKey_ne (by decide))),
    colVal_cons_ne (show ("MaxHR" : String) ≠ exerciseAnginaKey o from
      Ne.symm (exerciseAnginaKey_ne (by decide))),
    colVal_cons_ne (show ("Oldpeak" : String) ≠ exerciseAnginaKey o from
      Ne.symm (exerciseAnginaKey_ne (by decide))),
    colVal_cons_ne (show ("Sex_" ++ sexStr o.sex : String) ≠ exerciseAnginaKey o from
      sexKey_ne_exerciseAnginaKey o o),
    colVal_cons_ne (show ("ChestPainType_" ++ chestPainStr o.chest_pain : String) ≠
      exerciseAnginaKey o from chestPainKey_ne_exerciseAnginaKey o o),
    colVal_cons_ne (show ("RestingECG_" ++ restingECGStr o.resting_ecg : String) ≠
      exerciseAnginaKey o from restingECGKey_ne_exerciseAnginaKey o o),
    colVal_cons_eq
      (show ("ExerciseAngina_" ++ exerciseAnginaStr o.exercise_angina : String) =
        exerciseAnginaKey o from rfl)]

lemma colVal_rawInput_stSlopeKey (o : RawObservation) :
    colVal (rawInput o) (stSlopeKey o) = 1 := by
  unfold rawInput
  rw [colVal_cons_ne (show ("Age" : String) ≠ stSlopeKey o from
      Ne.symm (stSlopeKey_ne (by decide))),
    colVal_cons_ne (show ("RestingBP" : String) ≠ stSlopeKey o from
      Ne.symm (stSlopeKey_ne (by decide))),
    colVal_cons_ne (show ("Cholesterol" : String) ≠ stSlopeKey o from
      Ne.symm (stSlopeKey_ne (by decide))),
    colVal_cons_ne (show ("FastingBS" : String) ≠ stSlopeKey o from
      Ne.symm (stSlopeKey_ne (by decide))),
    colVal_cons_ne (show ("MaxHR" : String) ≠ stSlopeKey o from
      Ne.symm (stSlopeKey_ne (by decide))),
    colVal_cons_ne (show ("Oldpeak" : String) ≠ stSlopeKey o from
      Ne.symm (stSlopeKey_ne (by decide))),
    colVal_cons_ne (show ("Sex_" ++ sexStr o.sex : String) ≠ stSlopeKey o from
      sexKey_ne_stSlopeKey o o),
    colVal_cons_ne (show ("ChestPainType_" ++ chestPainStr o.chest_pain : String) ≠
      stSlopeKey o from chestPainKey_ne_stSlopeKey o o),
    colVal_cons_ne (show ("RestingECG_" ++ restingECGStr o.resting_ecg : String) ≠
      stSlopeKey o from restingECGKey_ne_stSlopeKey o o),
    colVal_cons_ne (show ("ExerciseAngina_" ++ exerciseAnginaStr o.exercise_angina : String) ≠
      stSlopeKey o from exerciseAnginaKey_ne_stSlopeKey o o),
    colVal_cons_eq (show ("ST_Slope_" ++ stSlopeStr o.st_slope : String) =
      stSlopeKey o from rfl)]

lemma sexKey_mem (o : RawObservation) : sexKey o ∈ sexCols := by
  cases hsx : o.sex <;> simp [sexKey, sexStr, hsx, sexCols]

lemma chestPainKey_mem (o : RawObservation) : chestPainKey o ∈ chestPainCols := by
  cases hx : o.chest_pain <;> simp [chestPainKey, chestPainStr, hx, chestPainCols]

lemma restingECGKey_mem (o : RawObservation) : restingECGKey o ∈ restingECGCols := by
  cases hx : o.resting_ecg <;> simp [restingECGKey, restingECGStr, hx, restingECGCols]

lemma exerciseAnginaKey_mem (o : RawObservation) :
    exerciseAnginaKey o ∈ exerciseAnginaCols := by
  cases hx : o.exercise_angina <;>
    simp [exerciseAnginaKey, exerciseAnginaStr, hx, exerciseAnginaCols]

lemma stSlopeKey_mem (o : RawObservation) : stSlopeKey o ∈ stSlopeCols := by
  cases hx : o.st_slope <;> simp [stSlopeKey, stSlopeStr, hx, stSlopeCols]

lemma hasCol_rawInput_age (o : RawObservation) : hasCol (rawInput o) "Age" = true :=
  (hasCol_rawInput_iff o "Age").mpr (Or.inl rfl)

lemma hasCol_rawInput_restingBP (o : RawObservation) :
    hasCol (rawInput o) "RestingBP" = true :=
  (hasCol_rawInput_iff o "RestingBP").mpr (Or.inr (Or.inl rfl))

lemma hasCol_rawInput_cholesterol (o : RawObservation) :
    hasCol (rawInput o) "Cholesterol" = true :=
  (hasCol_rawInput_iff o "Cholesterol").mpr (Or.inr (Or.inr (Or.inl rfl)))

lemma hasCol_rawInput_fastingBS (o : RawObservation) :
    hasCol (rawInput o) "FastingBS" = true :=
  (hasCol_rawInput_iff o "FastingBS").mpr (Or.inr (Or.inr (Or.inr (Or.inl rfl))))

lemma hasCol_rawInput_maxHR (o : RawObservation) :
    hasCol (rawInput o) "MaxHR" = true :=
  (hasCol_rawInput_iff o "MaxHR").mpr (Or.inr (Or.inr (Or.inr (Or.inr (Or.inl rfl)))))

lemma hasCol_rawInput_oldpeak (o : RawObservation) :
    hasCol (rawInput o) "Oldpeak" = true :=
  (hasCol_rawInput_iff o "Oldpeak").mpr
    (Or.inr (Or.inr (Or.inr (Or.inr (Or.inr (Or.inl rfl))))))

lemma colVal_rawInput_age (o : RawObservation) : colVal (rawInput o) "Age" = o.age := by
  unfold rawInput
  rw [colVal_cons_eq rfl]

lemma colVal_rawInput_restingBP (o : RawObservation) :
    colVal (rawInput o) "RestingBP" = o.resting_bp := by
  unfold rawInput
  rw [colVal_cons_ne (show ("Age" : String) ≠ "RestingBP" by decide), colVal_cons_eq rfl]

lemma colVal_rawInput_cholesterol (o : RawObservation) :
    colVal (rawInput o) "Cholesterol" = o.cholesterol := by
  unfold rawInput
  rw [colVal_cons_ne (show ("Age" : String) ≠ "Cholesterol" by decide),
    colVal_cons_ne (show ("RestingBP" : String) ≠ "Cholesterol" by decide),
    colVal_cons_eq rfl]

lemma colVal_rawInput_fastingBS (o : RawObservation) :
    colVal (rawInput o) "FastingBS" = o.fasting_bs := by
  unfold rawInput
  rw [colVal_cons_ne (show ("Age" : String) ≠ "FastingBS" by decide),
    colVal_cons_ne (show ("RestingBP" : String) ≠ "FastingBS" by decide),
    colVal_cons_ne (show ("Cholesterol" : String) ≠ "FastingBS" by decide),
    colVal_cons_eq rfl]

lemma colVal_rawInput_maxHR (o : RawObservation) :
    colVal (rawInput o) "MaxHR" = o.max_hr := by
  unfold rawInput
  rw [colVal_cons_ne (show ("Age" : String) ≠ "MaxHR" by decide),
    colVal_cons_ne (show ("RestingBP" : String) ≠ "MaxHR" by decide),
    colVal_cons_ne (show ("Cholesterol" : String) ≠ "MaxHR" by decide),
    colVal_cons_ne (show ("FastingBS" : String) ≠ "MaxHR" by decide),
    colVal_cons_eq rfl]

lemma colVal_rawInput_oldpeak (o : RawObservation) :
    colVal (rawInput o) "Oldpeak" = o.oldpeak := by
  unfold rawInput
  rw [colVal_cons_ne (show ("Age" : String) ≠ "Oldpeak" by decide),
    colVal_cons_ne (show ("RestingBP" : String) ≠ "Oldpeak" by decide),
    colVal_cons_ne (show ("Cholesterol" : String) ≠ "Oldpeak" by decide),
    colVal_cons_ne (show ("FastingBS" : String) ≠ "Oldpeak" by decide),
    colVal_cons_ne (show ("MaxHR" : String) ≠ "Oldpeak" by decide),
    colVal_cons_eq rfl]

lemma map_fst_of_map_pair (g : String → ℚ) (s : List String) :
    (s.map fun c => (c, g c)).map Prod.fst = s := by
  rw [List.map_map]
  rw [show (Prod.fst ∘ fun c => (c, g c)) = id from rfl, List.map_id]

/-- The branch selected by the result rendering (lines 181-198 of
`app.py`): the HIGH-risk styled block when `prediction == 1`, the
LOW-risk styled block otherwise. -/
inductive RiskBlock
  | high
  | low
  deriving DecidableEq

/-- Line 179 of `app.py`: `risk_pct = prediction_proba[1] * 100 if
prediction == 1 else prediction_proba[0] * 100`. -/
def risk_pct (prediction : ℤ) (proba0 proba1 : ℚ) : ℚ :=
  if prediction = 1 then proba1 * 100 else proba0 * 100

/-- Line 181 of `app.py`: `if prediction == 1:` renders the HIGH-risk
block, the `else` branch renders the LOW-risk block. -/
def riskBlock (prediction : ℤ) : RiskBlock :=
  if prediction = 1 then .high else .low

/-- The rule-based risk-factor list (lines 202-208 of `app.py`), built
by six independent threshold checks appended in program order. -/
def riskFactors (o : RawObservation) : List String :=
  (if o.age > 65 then ["Age > 65"] else []) ++
  (if o.resting_bp > 140 then ["High BP"] else []) ++
  (if o.cholesterol > 240 then ["High Cholesterol"] else []) ++
  (if o.fasting_bs = 1 then ["High Fasting Sugar"] else []) ++
  (if o.exercise_angina = ExerciseAngina.Y then ["Exercise Angina"] else []) ++
  (if o.max_hr < 100 then ["Low Max HR"] else [])

/-- What one submission leaves on the screen: either the rendered result
(block, percentage, risk factors) or the caught-exception error message. -/
inductive Displayed
  | resultShown (block : RiskBlock) (pct : ℚ) (factors : List String)
  | errorShown (msg : String)
  deriving DecidableEq

/-- The artifacts loaded once at startup (line 88 of `app.py`): the
expected column list, and the scaler-plus-model inference pipeline
(`scaler.transform`, `model.predict`, `model.predict_proba`) abstracted
as a single fallible function from the ordered feature row to the
predicted label and the two class probabilities. -/
structure AppArtifacts where
  schema : List String
  infer : List (String × ℚ) → Except String (ℤ × ℚ × ℚ)

/-- The analyze-button handler (lines 151-216 of `app.py`): the whole
body runs inside one `try`; any exception (a pandas `KeyError` from the
reorder, or an inference failure) is caught and rendered as
`st.error(f"Prediction failed: {e}")`. The handler returns the
artifacts unchanged together with what was displayed. -/
def analyzeSubmission (art : AppArtifacts) (o : RawObservation) :
    AppArtifacts × Displayed :=
  match buildInputDf o art.schema with
  | none => (art, .errorShown ("Prediction failed: " ++ "KeyError"))
  | some df =>
    match art.infer df with
    | .error e => (art, .errorShown ("Prediction failed: " ++ e))
    | .ok r => (art, .resultShown (riskBlock r.1) (risk_pct r.1 r.2.1 r.2.2) (riskFactors o))

/-- Instrumented variant of the handler in which the inference call is
drawn from an indexed family of attempts: the handler only ever consults
attempt 0, which makes the absence of retries a provable statement. -/
def analyzeAttempts (schema : List String)
    (attempts : ℕ → List (String × ℚ) → Except String (ℤ × ℚ × ℚ))
    (o : RawObservation) : Displayed :=
  match buildInputDf o schema with
  | none => .errorShown ("Prediction failed: " ++ "KeyError")
  | some df =>
    match attempts 0 df with
    | .error e => .errorShown ("Prediction failed: " ++ e)
    | .ok r => .resultShown (riskBlock r.1) (risk_pct r.1 r.2.1 r.2.2) (riskFactors o)

lemma mem_ite_singleton {c : Prop} [Decidable c] {x s : String} :
    s ∈ (if c then [x] else ([] : List String)) ↔ (s = x ∧ c) := by
  split <;> simp_all

/-- Membership in the risk-factor list, spelled out flag by flag. -/
lemma mem_riskFactors_iff (o : RawObservation) (s : String) :
    s ∈ riskFactors o ↔
      (s = "Age > 65" ∧ 65 < o.age) ∨
      (s = "High BP" ∧ 140 < o.resting_bp) ∨
      (s = "High Cholesterol" ∧ 240 < o.cholesterol) ∨
      (s = "High Fasting Sugar" ∧ o.fasting_bs = 1) ∨
      (s = "Exercise Angina" ∧ o.exercise_angina = ExerciseAngina.Y) ∨
      (s = "Low Max HR" ∧ o.max_hr < 100) := by
  unfold riskFactors
  simp only [List.mem_append, mem_ite_singleton, gt_iff_lt, or_assoc]

/-- One-hot behaviour of one categorical field: among the field's domain
columns, the filled frame holds 1 exactly once; the reordered vector
holds 1 exactly once among the domain columns the schema retains
(whenever the selected column is retained), and 0 at every retained
non-selected domain column. -/
lemma oneHot_generic (o : RawObservation) (schema : List String)
    (v : List (String × ℚ)) (hv : buildInputDf o schema = some v)
    (k : String) (cols : List String) (hnd : cols.Nodup) (hkc : k ∈ cols)
    (hchar : ∀ c ∈ cols, (hasCol (rawInput o) c = true) ↔ c = k)
    (hone : colVal (rawInput o) k = 1) :
    cols.countP (fun c => decide (colVal (fillMissing (rawInput o) schema) c = 1)) = 1 ∧
    (k ∈ schema →
      cols.countP (fun c => decide (c ∈ schema) && decide (colVal v c = 1)) = 1) ∧
    ∀ c ∈ cols, c ∈ schema → c ≠ k → colVal v c = 0 := by
  have hveq : v = schema.map (fun c =>
      (c, if hasCol (rawInput o) c then colVal (rawInput o) c else 0)) := by
    have h := buildInputDf_eq o schema
    rw [hv] at h
    exact Option.some.inj h
  have hfil : ∀ c : String, colVal (fillMissing (rawInput o) schema) c =
      if hasCol (rawInput o) c then colVal (rawInput o) c else 0 :=
    fun _ => colVal_fillMissing (rawInput o)
  have hcolv : ∀ c ∈ schema, colVal v c =
      if hasCol (rawInput o) c then colVal (rawInput o) c else 0 := by
    intro c hc
    rw [hveq]
    exact colVal_map_of_mem hc
  have hknot : ∀ c ∈ cols, c ≠ k → hasCol (rawInput o) c = false := by
    intro c hc hck
    cases hb : hasCol (rawInput o) c
    · rfl
    · exact absurd ((hchar c hc).mp hb) hck
  refine ⟨?_, ?_, ?_⟩
  · have hcong : ∀ c ∈ cols,
        (decide (colVal (fillMissing (rawInput o) schema) c = 1) = true) ↔
          ((c == k) = true) := by
      intro c hc
      rw [hfil c]
      by_cases hck : c = k
      · subst hck
        rw [if_pos ((hchar c hc).mpr rfl), hone]
        simp
      · rw [hknot c hc hck]
        simp [hck]
    calc cols.countP (fun c =>
            decide (colVal (fillMissing (rawInput o) schema) c = 1))
        = cols.countP (fun c => c == k) := List.countP_congr hcong
      _ = cols.count k := rfl
      _ = 1 := List.count_eq_one_of_mem hnd hkc
  · intro hks
    have hcong : ∀ c ∈ cols,
        ((decide (c ∈ schema) && decide (colVal v c = 1)) = true) ↔
          ((c == k) = true) := by
      intro c hc
      by_cases hck : c = k
      · subst hck
        have h1 : colVal v c = 1 := by
          rw [hcolv c hks, if_pos ((hchar c hc).mpr rfl), hone]
        simp [hks, h1]
      · by_cases hcs : c ∈ schema
        · have h0 : colVal v c = 0 := by
            rw [hcolv c hcs, hknot c hc hck]
            simp
          simp [h0, hck]
        · simp [hcs, hck]
    calc cols.countP (fun c => decide (c ∈ schema) && decide (colVal v c = 1))
        = cols.countP (fun c => c == k) := List.countP_congr hcong
      _ = cols.count k := rfl
      _ = 1 := List.count_eq_one_of_mem hnd hkc
  · intro c hc hcs hck
    rw [hcolv c hcs, hknot c hc hck]
    simp

/-- The five one-hot keys the builder synthesizes for one observation. -/
def catKeys (o : RawObservation) : List String :=
  [sexKey o, chestPainKey o, restingECGKey o, exerciseAnginaKey o, stSlopeKey o]

lemma hasCol_rawInput_catKey (o : RawObservation) {k : String}
    (hk : k ∈ catKeys o) : hasCol (rawInput o) k = true := by
  simp only [catKeys, List.mem_cons, List.not_mem_nil, or_false] at hk
  rcases hk with h | h | h | h | h <;> subst h <;> rw [hasCol_rawInput_iff] <;> tauto

/-- The example observation of the specification (section 8): Age 40,
male, ATA chest pain, BP 120, cholesterol 200, fasting flag 0, max HR
150, no exercise angina, oldpeak 1.0, normal ECG, upward slope. -/
def obsA : RawObservation :=
  ⟨40, 120, 200, 0, 150, 1, .M, .ATA, .Normal, .N, .Up⟩

/-- The observation of the risk-factor rule check (Age 70, BP 150, all
other inputs below their thresholds). -/
def obsC6 : RawObservation :=
  ⟨70, 150, 200, 0, 150, 1, .M, .ATA, .Normal, .N, .Up⟩

/-- An observation lying exactly on the four numeric flag boundaries. -/
def obsB : RawObservation :=
  ⟨65, 140, 240, 0, 100, 1, .M, .ATA, .Normal, .N, .Up⟩

/-- A schema of only the six numeric columns. -/
def schemaNum : List String :=
  ["Age", "RestingBP", "Cholesterol", "FastingBS", "MaxHR", "Oldpeak"]

/-- The row the builder produces for `obsA` under `schemaNum`. -/
def vecNumA : List (String × ℚ) :=
  [("Age", 40), ("RestingBP", 120), ("Cholesterol", 200), ("FastingBS", 0),
   ("MaxHR", 150), ("Oldpeak", 1)]

/-- A full training-style schema: the six numeric columns followed by
every one-hot column of the five categorical domains. -/
def schemaFull : List String :=
  ["Age", "RestingBP", "Cholesterol", "FastingBS", "MaxHR", "Oldpeak",
   "Sex_M", "Sex_F",
   "ChestPainType_ATA", "ChestPainType_NAP", "ChestPainType_TA", "ChestPainType_ASY",
   "RestingECG_Normal", "RestingECG_ST", "RestingECG_LVH",
   "ExerciseAngina_Y", "ExerciseAngina_N",
   "ST_Slope_Up", "ST_Slope_Flat", "ST_Slope_Down"]

/-- The row the builder produces for `obsA` under `schemaFull`. -/
def vecFullA : List (String × ℚ) :=
  [("Age", 40), ("RestingBP", 120), ("Cholesterol", 200), ("FastingBS", 0),
   ("MaxHR", 150), ("Oldpeak", 1),
   ("Sex_M", 1), ("Sex_F", 0),
   ("ChestPainType_ATA", 1), ("ChestPainType_NAP", 0), ("ChestPainType_TA", 0),
   ("ChestPainType_ASY", 0),
   ("RestingECG_Normal", 1), ("RestingECG_ST", 0), ("RestingECG_LVH", 0),
   ("ExerciseAngina_Y", 0), ("ExerciseAngina_N", 1),
   ("ST_Slope_Up", 1), ("ST_Slope_Flat", 0), ("ST_Slope_Down", 0)]

/-- Example artifacts whose inference pipeline always raises. -/
def artEx : AppArtifacts := ⟨schemaNum, fun _ => Except.error "boom"⟩

/-- C1: for every RawObservation and every ExpectedSchema, the feature
vector built by the reconstruction step has exactly as many entries as
the schema has columns, and its column order is exactly the schema
order. -/
theorem C1_feature_vector_shape (o : RawObservation) (schema : List String) :
    ∃ v, buildInputDf o schema = some v ∧
      v.length = schema.length ∧ v.map Prod.fst = schema :=
  ⟨_, buildInputDf_eq o schema, by simp, map_fst_of_map_pair _ schema⟩

/-- C2: for every RawObservation and schema, and each of the five
categorical fields, exactly one column of the field's domain carries 1
in the filled frame the builder constructs; among the domain columns the
schema retains, the selected column (whenever retained) is the only one
carrying 1 in the reordered vector, and every other retained domain
column carries 0. -/
theorem C2_one_hot_exactly_one (o : RawObservation) (schema : List String)
    (v : List (String × ℚ)) (hv : buildInputDf o schema = some v) :
    ∀ k cols, (k, cols) ∈ catFieldSpecs o →
      cols.countP (fun c => decide (colVal (fillMissing (rawInput o) schema) c = 1)) = 1 ∧
      (k ∈ schema →
        cols.countP (fun c => decide (c ∈ schema) && decide (colVal v c = 1)) = 1) ∧
      ∀ c ∈ cols, c ∈ schema → c ≠ k → colVal v c = 0 := by
  intro k cols hkcols
  simp only [catFieldSpecs, List.mem_cons, List.not_mem_nil, or_false,
    Prod.mk.injEq] at hkcols
  rcases hkcols with ⟨hk, hc⟩ | ⟨hk, hc⟩ | ⟨hk, hc⟩ | ⟨hk, hc⟩ | ⟨hk, hc⟩ <;>
    subst hk <;> subst hc
  · exact oneHot_generic o schema v hv _ _ (by decide) (sexKey_mem o)
      (fun c hc => hasCol_rawInput_sexCol o hc) (colVal_rawInput_sexKey o)
  · exact oneHot_generic o schema v hv _ _ (by decide) (chestPainKey_mem o)
      (fun c hc => hasCol_rawInput_chestPainCol o hc) (colVal_rawInput_chestPainKey o)
  · exact oneHot_generic o schema v hv _ _ (by decide) (restingECGKey_mem o)
      (fun c hc => hasCol_rawInput_restingECGCol o hc) (colVal_rawInput_restingECGKey o)
  · exact oneHot_generic o schema v hv _ _ (by decide) (exerciseAnginaKey_mem o)
      (fun c hc => hasCol_rawInput_exerciseAnginaCol o hc)
      (colVal_rawInput_exerciseAnginaKey o)
  · exact oneHot_generic o schema v hv _ _ (by decide) (stSlopeKey_mem o)
      (fun c hc => hasCol_rawInput_stSlopeCol o hc) (colVal_rawInput_stSlopeKey o)

/-- C2 witness: for the spec's example observation under the full
training-style schema, the Sex field has exactly one of its domain
columns set to 1 in the built vector. -/
theorem C2_one_hot_exactly_one_witness :
    buildInputDf obsA schemaFull = some vecFullA ∧
    (sexKey obsA, sexCols) ∈ catFieldSpecs obsA ∧
    sexKey obsA ∈ schemaFull ∧
    sexCols.countP
      (fun c => decide (c ∈ schemaFull) && decide (colVal vecFullA c = 1)) = 1 :=
  ⟨rfl, List.mem_cons_self _ _, by decide,
   (C2_one_hot_exactly_one obsA schemaFull vecFullA rfl (sexKey obsA) sexCols
      (List.mem_cons_self _ _)).2.1 (by decide)⟩

/-- C3: when a selected categorical value synthesizes a key that does
not occur in the schema, the key is still produced (it is a column of
the raw dict and of the filled frame) but the reorder drops it: the
builder succeeds, the output has no such column, and every output
column is a schema member. -/
theorem C3_unknown_category_dropped (o : RawObservation) (schema : List String)
    (k : String) (hk : k ∈ catKeys o) (hns : k ∉ schema)
    (v : List (String × ℚ)) (hv : buildInputDf o schema = some v) :
    hasCol (rawInput o) k = true ∧
    hasCol (fillMissing (rawInput o) schema) k = true ∧
    k ∉ v.map Prod.fst ∧
    ∀ c ∈ v.map Prod.fst, c ∈ schema := by
  have h1 := hasCol_rawInput_catKey o hk
  have hmap : v.map Prod.fst = schema := by
    have h := buildInputDf_eq o schema
    rw [hv] at h
    rw [Option.some.inj h]
    exact map_fst_of_map_pair _ schema
  exact ⟨h1, hasCol_fillMissing_of_hasCol h1,
    by rw [hmap]; exact hns, by rw [hmap]; exact fun c hc => hc⟩

/-- C3 witness: under the numeric-only schema, the synthesized key
`Sex_M` of the example observation is produced but dropped without an
error. -/
theorem C3_unknown_category_dropped_witness :
    sexKey obsA ∈ catKeys obsA ∧ sexKey obsA ∉ schemaNum ∧
    buildInputDf obsA schemaNum = some vecNumA ∧
    (hasCol (rawInput obsA) (sexKey obsA) = true ∧
     hasCol (fillMissing (rawInput obsA) schemaNum) (sexKey obsA) = true ∧
     sexKey obsA ∉ vecNumA.map Prod.fst ∧
     ∀ c ∈ vecNumA.map Prod.fst, c ∈ schemaNum) :=
  ⟨by decide, by decide, rfl,
   C3_unknown_category_dropped obsA schemaNum (sexKey obsA) (by decide) (by decide)
     vecNumA rfl⟩

/-- C4: the displayed risk percentage is 100 times the probability of
the predicted class: class-1 probability times 100 when the predicted
label is 1, class-0 probability times 100 when it is 0. -/
theorem C4_risk_pct_of_predicted_class (p0 p1 : ℚ) :
    risk_pct 1 p0 p1 = p1 * 100 ∧ risk_pct 0 p0 p1 = p0 * 100 := by
  constructor
  · simp [risk_pct]
  · norm_num [risk_pct]

/-- C5: each of the six numeric fields that the schema retains appears
in the built feature vector with exactly its raw input value. -/
theorem C5_numeric_passthrough (o : RawObservation) (schema : List String)
    (v : List (String × ℚ)) (hv : buildInputDf o schema = some v) :
    ("Age" ∈ schema → colVal v "Age" = o.age) ∧
    ("RestingBP" ∈ schema → colVal v "RestingBP" = o.resting_bp) ∧
    ("Cholesterol" ∈ schema → colVal v "Cholesterol" = o.cholesterol) ∧
    ("FastingBS" ∈ schema → colVal v "FastingBS" = o.fasting_bs) ∧
    ("MaxHR" ∈ schema → colVal v "MaxHR" = o.max_hr) ∧
    ("Oldpeak" ∈ schema → colVal v "Oldpeak" = o.oldpeak) := by
  have hveq : v = schema.map (fun c =>
      (c, if hasCol (rawInput o) c then colVal (rawInput o) c else 0)) := by
    have h := buildInputDf_eq o schema
    rw [hv] at h
    exact Option.some.inj h
  subst hveq
  refine ⟨fun hm => ?_, fun hm => ?_, fun hm => ?_, fun hm => ?_, fun hm => ?_,
    fun hm => ?_⟩
  · rw [colVal_map_of_mem hm, if_pos (hasCol_rawInput_age o), colVal_rawInput_age]
  · rw [colVal_map_of_mem hm, if_pos (hasCol_rawInput_restingBP o),
      colVal_rawInput_restingBP]
  · rw [colVal_map_of_mem hm, if_pos (hasCol_rawInput_cholesterol o),
      colVal_rawInput_cholesterol]
  · rw [colVal_map_of_mem hm, if_pos (hasCol_rawInput_fastingBS o),
      colVal_rawInput_fastingBS]
  · rw [colVal_map_of_mem hm, if_pos (hasCol_rawInput_maxHR o), colVal_rawInput_maxHR]
  · rw [colVal_map_of_mem hm, if_pos (hasCol_rawInput_oldpeak o),
      colVal_rawInput_oldpeak]

/-- C5 witness: the example observation's Age and Oldpeak pass through
unchanged under the numeric-only schema. -/
theorem C5_numeric_passthrough_witness :
    buildInputDf obsA schemaNum = some vecNumA ∧
    "Age" ∈ schemaNum ∧ colVal vecNumA "Age" = 40 ∧
    "Oldpeak" ∈ schemaNum ∧ colVal vecNumA "Oldpeak" = 1 :=
  ⟨rfl, by decide, (C5_numeric_passthrough obsA schemaNum vecNumA rfl).1 (by decide),
   by decide,
   (C5_numeric_passthrough obsA schemaNum vecNumA rfl).2.2.2.2.2 (by decide)⟩

/-- C6: with Age 70 and RestingBP 150 and every other input below its
threshold, the risk-factor list is exactly `["Age > 65", "High BP"]`;
in general each flag is in the list iff its threshold condition holds. -/
theorem C6_risk_factor_rules (o : RawObservation) :
    (o.age = 70 → o.resting_bp = 150 → o.cholesterol ≤ 240 → o.fasting_bs = 0 →
      o.exercise_angina = ExerciseAngina.N → 100 ≤ o.max_hr →
      riskFactors o = ["Age > 65", "High BP"]) ∧
    ("Age > 65" ∈ riskFactors o ↔ 65 < o.age) ∧
    ("High BP" ∈ riskFactors o ↔ 140 < o.resting_bp) ∧
    ("High Cholesterol" ∈ riskFactors o ↔ 240 < o.cholesterol) ∧
    ("High Fasting Sugar" ∈ riskFactors o ↔ o.fasting_bs = 1) ∧
    ("Exercise Angina" ∈ riskFactors o ↔ o.exercise_angina = ExerciseAngina.Y) ∧
    ("Low Max HR" ∈ riskFactors o ↔ o.max_hr < 100) := by
  refine ⟨?_, ?_, ?_, ?_, ?_, ?_, ?_⟩
  · intro h1 h2 h3 h4 h5 h6
    unfold riskFactors
    rw [if_pos (show o.age > 65 by rw [h1]; norm_num),
      if_pos (show o.resting_bp > 140 by rw [h2]; norm_num),
      if_neg (not_lt.mpr h3),
      if_neg (show ¬ o.fasting_bs = 1 by rw [h4]; norm_num),
      if_neg (show ¬ o.exercise_angina = ExerciseAngina.Y by rw [h5]; simp),
      if_neg (not_lt.mpr h6)]
    rfl
  · rw [mem_riskFactors_iff]; simp
  · rw [mem_riskFactors_iff]; simp
  · rw [mem_riskFactors_iff]; simp
  · rw [mem_riskFactors_iff]; simp
  · rw [mem_riskFactors_iff]; simp
  · rw [mem_riskFactors_iff]; simp

/-- C6 witness: the rule check's concrete input produces exactly the two
flags. -/
theorem C6_risk_factor_rules_witness :
    riskFactors obsC6 = ["Age > 65", "High BP"] :=
  (C6_risk_factor_rules obsC6).1 rfl rfl (by decide) rfl rfl (by decide)

/-- C7: when the inference pipeline raises on a submission, the handler
catches it, shows the failure message, and leaves the loaded artifacts
unchanged; and the handler's outcome depends only on attempt 0 of any
family of inference attempts, so no retry is performed. -/
theorem C7_inference_failure_caught (art : AppArtifacts) (o : RawObservation)
    (df : List (String × ℚ)) (e : String)
    (hdf : buildInputDf o art.schema = some df)
    (herr : art.infer df = Except.error e) :
    analyzeSubmission art o = (art, Displayed.errorShown ("Prediction failed: " ++ e)) ∧
    ∀ f g : ℕ → List (String × ℚ) → Except String (ℤ × ℚ × ℚ),
      f 0 = g 0 → analyzeAttempts art.schema f o = analyzeAttempts art.schema g o := by
  constructor
  · simp [analyzeSubmission, hdf, herr]
  · intro f g hfg
    unfold analyzeAttempts
    rw [hfg]

/-- C7 witness: artifacts whose pipeline always raises "boom" yield the
caught error display and unchanged artifacts on the example
observation. -/
theorem C7_inference_failure_caught_witness :
    buildInputDf obsA artEx.schema = some vecNumA ∧
    artEx.infer vecNumA = Except.error "boom" ∧
    analyzeSubmission artEx obsA =
      (artEx, Displayed.errorShown ("Prediction failed: " ++ "boom")) :=
  ⟨rfl, rfl, (C7_inference_failure_caught artEx obsA vecNumA "boom" rfl rfl).1⟩

/-- C8: the feature-vector builder is deterministic: identical
observations under the same schema yield identical outputs. -/
theorem C8_builder_deterministic (o o' : RawObservation) (schema : List String)
    (h : o = o') : buildInputDf o schema = buildInputDf o' schema := by
  rw [h]

/-- C8 witness: the determinism theorem applied at the example
observation and the numeric schema. -/
theorem C8_builder_deterministic_witness :
    obsA = obsA ∧ buildInputDf obsA schemaNum = buildInputDf obsA schemaNum :=
  ⟨rfl, C8_builder_deterministic obsA obsA schemaNum rfl⟩

/-- C9: the four numeric risk-factor comparisons are strict: an input
exactly on a boundary (age 65, resting BP 140, cholesterol 240, max HR
100) does not add the corresponding flag. -/
theorem C9_thresholds_strict (o : RawObservation) :
    (o.age = 65 → "Age > 65" ∉ riskFactors o) ∧
    (o.resting_bp = 140 → "High BP" ∉ riskFactors o) ∧
    (o.cholesterol = 240 → "High Cholesterol" ∉ riskFactors o) ∧
    (o.max_hr = 100 → "Low Max HR" ∉ riskFactors o) := by
  refine ⟨fun h => ?_, fun h => ?_, fun h => ?_, fun h => ?_⟩ <;>
    rw [mem_riskFactors_iff] <;> simp [h]

/-- C9 witness: the all-boundaries observation receives none of the four
numeric flags. -/
theorem C9_thresholds_strict_witness :
    (obsB.age = 65 ∧ "Age > 65" ∉ riskFactors obsB) ∧
    (obsB.resting_bp = 140 ∧ "High BP" ∉ riskFactors obsB) ∧
    (obsB.cholesterol = 240 ∧ "High Cholesterol" ∉ riskFactors obsB) ∧
    (obsB.max_hr = 100 ∧ "Low Max HR" ∉ riskFactors obsB) :=
  ⟨⟨rfl, (C9_thresholds_strict obsB).1 rfl⟩,
   ⟨rfl, (C9_thresholds_strict obsB).2.1 rfl⟩,
   ⟨rfl, (C9_thresholds_strict obsB).2.2.1 rfl⟩,
   ⟨rfl, (C9_thresholds_strict obsB).2.2.2 rfl⟩⟩

/-- C10: the HIGH-risk block is rendered iff the predicted label is 1;
for every other label, including labels that are neither 0 nor 1, the
LOW-risk block is rendered and the percentage comes from the class-0
probability. -/
theorem C10_block_selection (pred : ℤ) (p0 p1 : ℚ) :
    (riskBlock pred = RiskBlock.high ↔ pred = 1) ∧
    (pred ≠ 1 → riskBlock pred = RiskBlock.low ∧ risk_pct pred p0 p1 = p0 * 100) := by
  constructor
  · unfold riskBlock
    split <;> simp [*]
  · intro h
    unfold riskBlock risk_pct
    rw [if_neg h, if_neg h]
    exact ⟨rfl, rfl⟩

/-- C10 witness: the label 2, neither 0 nor 1, renders the LOW block
with the class-0 percentage. -/
theorem C10_block_selection_witness :
    ((2 : ℤ) ≠ 1) ∧ riskBlock 2 = RiskBlock.low ∧
      risk_pct 2 (1/4) (3/4) = (1/4) * 100 :=
  ⟨by decide, (C10_block_selection 2 (1/4) (3/4)).2 (by decide)⟩
